import Mathlib

/-!
Shallow embedding of the HAIx calibration core (controller.py,
calibration_data_handler.py, eeg_data_handler.py, config.py).

Modelling conventions:
* Wall-clock times and all numeric sample payloads are `Int` (the code only
  compares and copies them, it never does fractional arithmetic that the
  claims depend on).
* Python `None` becomes `Option.none`; a Python dict that is persisted
  becomes a `JVal` JSON tree built from the exact dict literal in the source.
* File writes: Python appends one JSON line to `{index}.jsonl` inside
  `{dir}/{username}`; the model collects appended lines in a journal
  (`List FileLine`), one entry per written line.  An I/O failure of the
  `open/write/flush/fsync` block is modelled by the boolean `ioOk`.
* Exceptions: Python mutates `self` in place, so an exception propagating out
  of a method leaves the mutations made before the raise.  Methods that can
  raise therefore return the mutated state together with `Except PyErr`.
* `random.shuffle` is replaced by an injected permutation source
  (`perms : Nat → List Nat`), the deterministic test seam of the spec.
-/

namespace HAIx

/-- The three collection phases ("starting_rest", "focus", "ending_rest"). -/
inductive Phase
  | startingRest
  | focus
  | endingRest
deriving DecidableEq, Repr

/-- JSON values, used for persisted trial lines. -/
inductive JVal
  | null
  | num (n : Int)
  | str (s : String)
  | arr (xs : List JVal)
  | obj (kvs : List (String × JVal))

/-- Key lookup in a JSON object key/value list. -/
def lookupKV : List (String × JVal) → String → Option JVal
  | [], _ => none
  | (k, v) :: rest, key => if k = key then some v else lookupKV rest key

/-- Field access on a JSON value (none for non-objects / missing keys). -/
def JVal.lookup : JVal → String → Option JVal
  | .obj kvs, key => lookupKV kvs key
  | _, _ => none

/-- Python exception kinds reachable in the modelled code. -/
inductive PyErr
  | indexError
  | attributeError
  | keyError
deriving DecidableEq, Repr

/-- One line appended to a `.jsonl` file: which root directory
("eye_calibration" or "eeg_calibration"), which user folder, which
`{fileIndex}.jsonl` file, and the serialized JSON line. -/
structure FileLine where
  dir : String
  user : String
  fileIndex : Nat
  line : JVal

/-- The gaze dict passed to `log_gaze_data` (keys may hold null). -/
structure GazeData where
  timestamp : Option Int
  avg_x : Option Int
  avg_y : Option Int
  left : Option (Int × Int)
  right : Option (Int × Int)
deriving DecidableEq, Repr

/-- A gaze sample as stored in a phase buffer (`formatted_sample`). -/
structure GSample where
  t : Int
  x : Option Int
  y : Option Int
  left : Option (Int × Int)
  right : Option (Int × Int)
deriving DecidableEq, Repr

/-- JSON encoding of an optional number (Python `None` -> null). -/
def optNum : Option Int → JVal
  | none => .null
  | some n => .num n

/-- JSON encoding of an optional coordinate pair. -/
def optPair : Option (Int × Int) → JVal
  | none => .null
  | some (a, b) => .arr [.num a, .num b]

/-- JSON encoding of a stored gaze sample. -/
def GSample.toJson (s : GSample) : JVal :=
  .obj [("t", .num s.t), ("x", optNum s.x), ("y", optNum s.y),
        ("left", optPair s.left), ("right", optPair s.right)]

/-- State of `CalibrationDataHandler` (calibration_data_handler.py). -/
structure CalibHandler where
  username : String
  session_id : String
  current_calibration_index : Nat
  current_circle : Option Nat
  current_phase : Option Phase
  starting_rest_data : List GSample
  focus_data : List GSample
  ending_rest_data : List GSample
deriving DecidableEq, Repr

/-- `CalibrationDataHandler.start_session` (always succeeds, log only). -/
def CalibHandler.start_session (_h : CalibHandler) : Bool := true

/-- `CalibrationDataHandler.increment_session_number`. -/
def CalibHandler.increment_session_number (h : CalibHandler) : CalibHandler :=
  { h with current_calibration_index := h.current_calibration_index + 1 }

/-- `CalibrationDataHandler.start_circle_collection`: set circle and phase,
clearing the three buffers exactly when the phase is "starting_rest". -/
def CalibHandler.start_circle_collection (h : CalibHandler)
    (circle_id : Nat) (phase : Phase) : CalibHandler :=
  let h' := { h with current_circle := some circle_id, current_phase := some phase }
  if phase = .startingRest then
    { h' with starting_rest_data := [], focus_data := [], ending_rest_data := [] }
  else h'

/-- `CalibrationDataHandler.start_circle_focus` (alias of the above). -/
def CalibHandler.start_circle_focus (h : CalibHandler)
    (circle_id : Nat) (phase : Phase) : CalibHandler :=
  h.start_circle_collection circle_id phase

/-- `CalibrationDataHandler.log_gaze_data`: drop the sample when no phase is
active or the circle does not match, else append the formatted sample to the
buffer of the current phase.  `now` models the `time.time()` default used
when the gaze dict has no timestamp. -/
def CalibHandler.log_gaze_data (h : CalibHandler) (gaze : GazeData)
    (circle_id : Nat) (now : Int) : CalibHandler :=
  if h.current_phase = none ∨ h.current_circle ≠ some circle_id then h
  else
    let s : GSample :=
      ⟨gaze.timestamp.getD now, gaze.avg_x, gaze.avg_y, gaze.left, gaze.right⟩
    match h.current_phase with
    | some .startingRest => { h with starting_rest_data := h.starting_rest_data ++ [s] }
    | some .focus => { h with focus_data := h.focus_data ++ [s] }
    | some .endingRest => { h with ending_rest_data := h.ending_rest_data ++ [s] }
    | none => h

/-- The JSON entry built by `CalibrationDataHandler.save_circle_data`
(the exact dict literal of the source; note the meta object holds only
"timestamp" and "data_type"). -/
def CalibHandler.entryJson (h : CalibHandler) (circle : Nat) (now : Int) : JVal :=
  .obj [("username", .str h.username),
        ("session_id", .str h.session_id),
        ("calibration_index", .num (h.current_calibration_index : Int)),
        ("circle", .num (circle : Int)),
        ("starting_rest", .arr (h.starting_rest_data.map GSample.toJson)),
        ("focus", .arr (h.focus_data.map GSample.toJson)),
        ("ending_rest", .arr (h.ending_rest_data.map GSample.toJson)),
        ("meta", .obj [("timestamp", .num now), ("data_type", .str "eye_tracking")])]

/-- `CalibrationDataHandler.save_circle_data`: returns False when no circle is
open; otherwise builds the entry, clears the buffers (the circle stays set),
and appends one line to `eye_calibration/{user}/{index}.jsonl` with
write+flush+fsync; any I/O error is caught and reported as False. -/
def CalibHandler.save_circle_data (h : CalibHandler) (now : Int) (ioOk : Bool) :
    CalibHandler × Option FileLine × Bool :=
  match h.current_circle with
  | none => (h, none, false)
  | some circ =>
    let entry := h.entryJson circ now
    let h' := { h with starting_rest_data := [], focus_data := [],
                       ending_rest_data := [] }
    if ioOk then
      (h', some ⟨"eye_calibration", h.username, h.current_calibration_index, entry⟩, true)
    else
      (h', none, false)

/-- `CalibrationDataHandler.end_circle_focus`: save if a circle is open, then
clear circle and phase. -/
def CalibHandler.end_circle_focus (h : CalibHandler) (now : Int) (ioOk : Bool) :
    CalibHandler × Option FileLine × Bool :=
  match h.current_circle with
  | none => ({ h with current_circle := none, current_phase := none }, none, false)
  | some _ =>
    let r := h.save_circle_data now ioOk
    ({ r.1 with current_circle := none, current_phase := none }, r.2.1, r.2.2)

/-- An EEG sample dict as delivered by the device callback.  `t = none`
models a dict without a "t" key (accessing it raises KeyError); a dict
without a "channels" key behaves as `channels = []` because the source reads
it with `sample.get("channels", [])`. -/
structure ESample where
  t : Option Int
  channels : List Int
deriving DecidableEq, Repr

/-- An EEG sample as stored in a phase buffer (`{"t": ..., "ch": ...}`). -/
structure EStored where
  t : Int
  ch : List Int
deriving DecidableEq, Repr

/-- JSON encoding of a stored EEG sample. -/
def EStored.toJson (s : EStored) : JVal :=
  .obj [("t", .num s.t), ("ch", .arr (s.ch.map JVal.num))]

/-- State of `EEGDataHandler` (eeg_data_handler.py). -/
structure EEGHandler where
  username : String
  session_id : String
  sampling_rate : Int
  channel_count : Nat
  current_calibration_index : Nat
  current_circle : Option Nat
  current_phase : Option Phase
  starting_rest_data : List EStored
  focus_data : List EStored
  ending_rest_data : List EStored
  gap_time : Int
  focus_time : Int
deriving DecidableEq, Repr

/-- The phase buffer of an EEG handler, keyed by phase. -/
def EEGHandler.buf (h : EEGHandler) : Phase → List EStored
  | .startingRest => h.starting_rest_data
  | .focus => h.focus_data
  | .endingRest => h.ending_rest_data

/-- `EEGDataHandler.set_timing_parameters`. -/
def EEGHandler.set_timing_parameters (h : EEGHandler) (gap focusT : Int) : EEGHandler :=
  { h with gap_time := gap, focus_time := focusT }

/-- `EEGDataHandler.start_calibration_index`. -/
def EEGHandler.start_calibration_index (h : EEGHandler) (idx : Nat) : EEGHandler :=
  { h with current_calibration_index := idx }

/-- `EEGDataHandler.start_circle_collection`: set the circle, clear all three
buffers and reset the phase to None. -/
def EEGHandler.start_circle_collection (h : EEGHandler) (circle_number : Nat) : EEGHandler :=
  { h with current_circle := some circle_number,
           starting_rest_data := [], focus_data := [], ending_rest_data := [],
           current_phase := none }

/-- `EEGDataHandler.set_phase`. -/
def EEGHandler.set_phase (h : EEGHandler) (p : Phase) : EEGHandler :=
  { h with current_phase := some p }

/-- `EEGDataHandler.add_sample`: no-op when no phase or circle is active;
no-op (with a logged warning) on a channel-count mismatch; otherwise reads
`sample["t"]` (KeyError when the key is absent) and appends the formatted
sample to the buffer of the current phase. -/
def EEGHandler.add_sample (h : EEGHandler) (sample : ESample) :
    Except PyErr EEGHandler :=
  if h.current_phase = none ∨ h.current_circle = none then .ok h
  else if sample.channels.length ≠ h.channel_count then .ok h
  else
    match sample.t with
    | none => .error .keyError
    | some t =>
      let s : EStored := ⟨t, sample.channels⟩
      match h.current_phase with
      | some .startingRest => .ok { h with starting_rest_data := h.starting_rest_data ++ [s] }
      | some .focus => .ok { h with focus_data := h.focus_data ++ [s] }
      | some .endingRest => .ok { h with ending_rest_data := h.ending_rest_data ++ [s] }
      | none => .ok h

/-- The JSON entry built by `EEGDataHandler.save_circle_data` (the exact dict
literal of the source; the meta object holds gap_time, focus_time and
timestamp, read from the handler at save time). -/
def EEGHandler.entryJson (h : EEGHandler) (circle : Nat) (now : Int) : JVal :=
  .obj [("username", .str h.username),
        ("session_id", .str h.session_id),
        ("calibration_index", .num (h.current_calibration_index : Int)),
        ("circle", .num (circle : Int)),
        ("channel_count", .num (h.channel_count : Int)),
        ("sampling_rate", .num h.sampling_rate),
        ("starting_rest", .arr (h.starting_rest_data.map EStored.toJson)),
        ("focus", .arr (h.focus_data.map EStored.toJson)),
        ("ending_rest", .arr (h.ending_rest_data.map EStored.toJson)),
        ("meta", .obj [("gap_time", .num h.gap_time),
                       ("focus_time", .num h.focus_time),
                       ("timestamp", .num now)])]

/-- `EEGDataHandler.save_circle_data`: returns False when no circle is open;
otherwise builds the entry, clears the buffers and resets circle and phase to
None (all before the write), then appends one line to
`eeg_calibration/{user}/{index}.jsonl` with write+flush+fsync; any I/O error
is caught and reported as False. -/
def EEGHandler.save_circle_data (h : EEGHandler) (now : Int) (ioOk : Bool) :
    EEGHandler × Option FileLine × Bool :=
  match h.current_circle with
  | none => (h, none, false)
  | some circ =>
    let entry := h.entryJson circ now
    let h' := { h with starting_rest_data := [], focus_data := [],
                       ending_rest_data := [],
                       current_circle := none, current_phase := none }
    if ioOk then
      (h', some ⟨"eeg_calibration", h.username, h.current_calibration_index, entry⟩, true)
    else
      (h', none, false)

/-- The three input modes (config.py INPUT_MODES). -/
inductive InputMode
  | mouse
  | tobii
  | eeg
deriving DecidableEq, Repr

/-- The application phases (config.py PHASES). -/
inductive CtrlPhase
  | testing
  | calibration
  | startPhase
deriving DecidableEq, Repr

/-- config.py EEG_SAMPLING_RATE. -/
def EEG_SAMPLING_RATE : Int := 256

/-- config.py EEG_CHANNEL_COUNT. -/
def EEG_CHANNEL_COUNT : Nat := 32

/-- A fresh `EEGDataHandler` as built in `BCIController.start_calibration`. -/
def mkEEGHandler (username : String) (sampling_rate : Int) (channel_count : Nat) :
    EEGHandler :=
  { username := username, session_id := "sid", sampling_rate := sampling_rate,
    channel_count := channel_count, current_calibration_index := 1,
    current_circle := none, current_phase := none,
    starting_rest_data := [], focus_data := [], ending_rest_data := [],
    gap_time := 2, focus_time := 4 }

/-- State of `BCIController` (controller.py), restricted to the calibration
core; pure presentation objects (canvas, circles, timer, rest screen) carry
no calibration state and are omitted.  `journal` collects every `.jsonl`
line written by the data handlers, `statusLog` every `_update_status` call.
`eeg_device_connected` / `tobii_available` / `device_sampling_rate` /
`device_channel_count` model the hardware adapters.  `calibration_rounds` is
a `Nat`: for `rounds <= 0` the Python `range(rounds)` loops run zero times,
exactly as for `rounds = 0`. -/
structure Ctrl where
  input_mode : InputMode
  current_phase : CtrlPhase
  focus_time : Int
  gap_time : Int
  calibration_rounds : Nat
  calibration_active : Bool
  calibration_sequence : List Nat
  current_calibration_index : Nat
  calibration_start_time : Int
  calibration_session_start : Int
  calibration_completed_rounds : Nat
  is_in_starting_rest : Bool
  is_in_focus_phase : Bool
  is_in_ending_rest : Bool
  total_calibrations_done : Nat
  circles_completed_in_round : Nat
  eeg_current_circle_number : Nat
  eeg_circle_repetition : Nat
  mouse_x : Int
  mouse_y : Int
  gaze_x : Int
  gaze_y : Int
  tobii_focus_start_time : Option Int
  tobii_currently_focused_circle : Option Nat
  calib : CalibHandler
  eeg : Option EEGHandler
  allow_without_hardware : Bool
  eeg_device_connected : Bool
  tobii_available : Bool
  device_sampling_rate : Int
  device_channel_count : Nat
  statusLog : List (String × String)
  journal : List FileLine

/-- `BCIController._update_status` (messages are abbreviated: their exact
text is presentation only). -/
def Ctrl.pushStatus (c : Ctrl) (msg level : String) : Ctrl :=
  { c with statusLog := c.statusLog ++ [(msg, level)] }

/-- `BCIController.on_mouse_move`: records the cursor position only; no
sample is routed to any data handler. -/
def Ctrl.on_mouse_move (c : Ctrl) (x y : Int) : Ctrl :=
  { c with mouse_x := x, mouse_y := y }

/-- `BCIController._on_eeg_sample`: forwards the sample to the EEG handler
when a handler exists and calibration is active. -/
def Ctrl.on_eeg_sample (c : Ctrl) (sample : ESample) : Ctrl × Except PyErr Unit :=
  match c.eeg with
  | none => (c, .ok ())
  | some h =>
    if c.calibration_active then
      match h.add_sample sample with
      | .ok h' => ({ c with eeg := some h' }, .ok ())
      | .error e => (c, .error e)
    else (c, .ok ())

/-- `BCIController._on_gaze_update`: updates the gaze coordinates, and only
when calibration is active, the focus phase flag is set and the sequence
index is in range does it update the cosmetic dwell fields and forward the
sample to `log_gaze_data` for the glowing circle.  `isFocusing` abstracts the
purely geometric `_check_gaze_on_stimulus` test (it feeds only the cosmetic
dwell fields). -/
def Ctrl.on_gaze_update (c : Ctrl) (gx gy : Int) (gaze : GazeData)
    (isFocusing : Bool) (now : Int) : Ctrl :=
  let c := { c with gaze_x := gx, gaze_y := gy }
  if c.calibration_active ∧ c.is_in_focus_phase ∧
      c.current_calibration_index < c.calibration_sequence.length then
    match c.calibration_sequence.get? c.current_calibration_index with
    | none => c
    | some idx =>
      let glowing_circle := idx + 1
      let c :=
        if isFocusing then
          if c.tobii_currently_focused_circle ≠ some glowing_circle then
            { c with tobii_focus_start_time := some now,
                     tobii_currently_focused_circle := some glowing_circle }
          else c
        else
          { c with tobii_focus_start_time := none,
                   tobii_currently_focused_circle := none }
      { c with calib := c.calib.log_gaze_data gaze glowing_circle now }
  else c

/-- The mouse/Tobii calibration sequence: one injected permutation of
`range 8` per round, concatenated (`random.shuffle` per round, extend). -/
def mkRandomSequence (rounds : Nat) (perms : Nat → List Nat) : List Nat :=
  ((List.range rounds).map perms).flatten

/-- The EEG calibration sequence: `for circle_num in range(1, 9): for _ in
range(rounds): append(circle_num - 1)`. -/
def mkEEGSequence (rounds : Nat) : List Nat :=
  ((List.range 8).map (fun c => List.replicate rounds c)).flatten

/-- Tail of `BCIController.start_calibration` (controller.py lines 349-384):
activate calibration, set the position and phase flags, open the first
circle on the data handler, then call `self._hide_main_ui()` — which raises
AttributeError, because the method is defined as `_hide_main_UI` and Python
attribute lookup is case sensitive; the remaining lines (timer, status,
`return True`) are unreachable.  On an empty sequence,
`self.calibration_sequence[0]` raises IndexError first; in both cases the
state mutated so far survives the exception. -/
def Ctrl.startTail (c : Ctrl) (now : Int) : Ctrl × Except PyErr Bool :=
  let c := { c with calibration_active := true, current_calibration_index := 0,
                    circles_completed_in_round := 0,
                    calibration_completed_rounds := 1,
                    is_in_starting_rest := true, is_in_focus_phase := false,
                    is_in_ending_rest := false,
                    calibration_start_time := now,
                    calibration_session_start := now,
                    tobii_focus_start_time := none,
                    tobii_currently_focused_circle := none }
  match c.calibration_sequence.head? with
  | none => (c, .error .indexError)
  | some idx0 =>
    let first_circle := idx0 + 1
    if c.input_mode = .eeg then
      match c.eeg with
      | none => (c, .error .attributeError)
      | some h =>
        let h := (h.start_circle_collection first_circle).set_phase .startingRest
        ({ c with eeg := some h }, .error .attributeError)
    else
      let c := { c with calib :=
        c.calib.start_circle_collection first_circle .startingRest }
      (c, .error .attributeError)

/-- `BCIController.start_calibration` (controller.py lines 269-384).
`perms` injects the per-round shuffles; `streamOk` models the success of
`eeg_device.start_stream` when the device is connected (a raising
`start_stream` behaves like a failing one: both refuse unless
`allow_without_hardware`). -/
def Ctrl.start_calibration (c : Ctrl) (now : Int) (perms : Nat → List Nat)
    (streamOk : Bool) : Ctrl × Except PyErr Bool :=
  if c.current_phase ≠ .calibration then
    (c.pushStatus "Must switch to Calibration Phase" "error", .ok false)
  else
    match c.input_mode with
    | .eeg =>
      if ¬c.allow_without_hardware ∧ ¬c.eeg_device_connected then
        (c.pushStatus "EEG Hardware Not Connected" "error", .ok false)
      else
        let c :=
          match c.eeg with
          | some _ => c
          | none =>
            if c.eeg_device_connected then
              { c with eeg := some (mkEEGHandler c.calib.username
                  c.device_sampling_rate c.device_channel_count) }
            else
              { c with eeg := some (mkEEGHandler c.calib.username
                  EEG_SAMPLING_RATE EEG_CHANNEL_COUNT) }
        if c.eeg_device_connected ∧ ¬streamOk ∧ ¬c.allow_without_hardware then
          (c.pushStatus "Failed to Start EEG Streaming" "error", .ok false)
        else
          let c := { c with eeg := (c.eeg.map (fun (h : EEGHandler) =>
            (h.set_timing_parameters c.gap_time c.focus_time).start_calibration_index 1)) }
          let c := { c with calibration_sequence := mkEEGSequence c.calibration_rounds,
                            eeg_current_circle_number := 1,
                            eeg_circle_repetition := 0 }
          c.startTail now
    | .tobii =>
      if ¬c.allow_without_hardware ∧ ¬c.tobii_available then
        (c.pushStatus "Tobii Hardware Not Connected" "error", .ok false)
      else
        let c := { c with calibration_sequence :=
          mkRandomSequence c.calibration_rounds perms }
        c.startTail now
    | .mouse =>
      let c := { c with calibration_sequence :=
        mkRandomSequence c.calibration_rounds perms }
      c.startTail now

/-- `BCIController.stop_calibration`: returns unchanged when inactive; else
deactivates calibration, and (non-EEG) calls `end_circle_focus` — which
saves the current partial trial whenever a circle is open — and
`end_session`; in EEG mode only the device stream is stopped.  Exceptions in
that block are swallowed by the bare `except`. -/
def Ctrl.stop_calibration (c : Ctrl) (now : Int) (ioOk : Bool) : Ctrl :=
  if ¬c.calibration_active then c
  else
    let c := { c with calibration_active := false }
    let c :=
      if c.input_mode = .eeg then c
      else
        let r := c.calib.end_circle_focus now ioOk
        { c with calib := r.1, journal := c.journal ++ r.2.1.toList }
    c.pushStatus "Calibration Stopped" "warning"

/-- Starting-rest branch of `BCIController._update_calibration`: when the
gap time has elapsed, enter the focus phase, activate the stimulus for the
current sequence entry and switch the data handler to the focus phase. -/
def Ctrl.tickStartingRest (c : Ctrl) (now : Int) : Ctrl × Except PyErr Unit :=
  let elapsed := now - c.calibration_start_time
  if elapsed ≥ c.gap_time then
    let c := { c with is_in_starting_rest := false, is_in_focus_phase := true,
                      calibration_start_time := now }
    match c.calibration_sequence.get? c.current_calibration_index with
    | none => (c, .error .indexError)
    | some idx =>
      if c.input_mode = .eeg then
        match c.eeg with
        | none => (c, .error .attributeError)
        | some h => ({ c with eeg := some (h.set_phase .focus) }, .ok ())
      else
        ({ c with calib := c.calib.start_circle_focus (idx + 1) .focus }, .ok ())
  else (c, .ok ())

/-- Focus branch of `BCIController._update_calibration`: the dwell/dot
animation code mutates no calibration state; when the focus time has
elapsed, the flags flip to ending rest and the dwell fields reset, after
which `self._hide_main_ui()` raises AttributeError (the method is defined as
`_hide_main_UI`), so the switch of the data handler to the "ending_rest"
phase below that call is unreachable. -/
def Ctrl.tickFocus (c : Ctrl) (now : Int) : Ctrl × Except PyErr Unit :=
  let elapsed := now - c.calibration_start_time
  if elapsed ≥ c.focus_time then
    let c := { c with is_in_focus_phase := false, is_in_ending_rest := true,
                      calibration_start_time := now,
                      tobii_focus_start_time := none,
                      tobii_currently_focused_circle := none }
    (c, .error .attributeError)
  else (c, .ok ())

/-- Per-trial flush and bookkeeping of the ending-rest branch of
`BCIController._update_calibration` (controller.py lines 555-580): EEG mode
saves via the EEG handler and advances the repetition/block counters
(`none` models the AttributeError of calling `save_circle_data` on a `None`
handler); mouse/Tobii mode flushes via `end_circle_focus` and advances the
round counters, with session rollover (`increment_session_number`) and
mapping-file generation once per 8 trials — the mapping file is not a trial
line and is not journalled. -/
def Ctrl.endingFlush (c : Ctrl) (now : Int) (ioOk : Bool) : Option Ctrl :=
  if c.input_mode = .eeg then
    c.eeg.map (fun h =>
      let r := h.save_circle_data now ioOk
      let c := { c with eeg := some r.1, journal := c.journal ++ r.2.1.toList }
      let rep := c.eeg_circle_repetition + 1
      if rep ≥ c.calibration_rounds then
        let c := { c with eeg_circle_repetition := 0,
                          eeg_current_circle_number := c.eeg_current_circle_number + 1,
                          calibration_completed_rounds := c.calibration_completed_rounds + 1 }
        if c.eeg_current_circle_number ≤ 8 then
          { c with eeg := (c.eeg.map (fun (g : EEGHandler) =>
              g.start_calibration_index c.eeg_current_circle_number)) }
        else c
      else { c with eeg_circle_repetition := rep })
  else
    let r := c.calib.end_circle_focus now ioOk
    let c := { c with calib := r.1, journal := c.journal ++ r.2.1.toList }
    let done := c.circles_completed_in_round + 1
    some (
      if done ≥ 8 then
        let c := { c with circles_completed_in_round := 0,
                          calibration_completed_rounds := c.calibration_completed_rounds + 1 }
        { c with calib := c.calib.increment_session_number,
                 total_calibrations_done := c.total_calibrations_done + 1 }
      else { c with circles_completed_in_round := done })

/-- Sequence advance of the ending-rest branch (controller.py lines
582-631): increment the position, then either complete the calibration or
open the next circle in starting rest. -/
def Ctrl.endingAdvance (c : Ctrl) (now : Int) : Ctrl × Except PyErr Unit :=
  let c := { c with current_calibration_index := c.current_calibration_index + 1 }
  if c.current_calibration_index ≥ c.calibration_sequence.length then
    let c := { c with calibration_active := false }
    (c.pushStatus "Calibration Complete" "success", .ok ())
  else
    match c.calibration_sequence.get? c.current_calibration_index with
    | none => (c, .error .indexError)
    | some idx =>
      let circle_num := idx + 1
      let c := { c with is_in_ending_rest := false, is_in_starting_rest := true,
                        calibration_start_time := now }
      if c.input_mode = .eeg then
        match c.eeg with
        | none => (c, .error .attributeError)
        | some h =>
          let h := (h.start_circle_collection circle_num).set_phase .startingRest
          (({ c with eeg := some h }).pushStatus "EEG Calibration" "info", .ok ())
      else
        let c := { c with calib :=
          c.calib.start_circle_collection circle_num .startingRest }
        (c.pushStatus "Calibration Round" "info", .ok ())

/-- Ending-rest branch of `BCIController._update_calibration` (controller.py
lines 551-631): when the gap time has elapsed, flush the trial and advance. -/
def Ctrl.tickEndingRest (c : Ctrl) (now : Int) (ioOk : Bool) :
    Ctrl × Except PyErr Unit :=
  let elapsed := now - c.calibration_start_time
  if elapsed ≥ c.gap_time then
    match c.endingFlush now ioOk with
    | none => (c, .error .attributeError)
    | some c => c.endingAdvance now
  else (c, .ok ())

/-- `BCIController._update_calibration`: dispatch on the phase flags. -/
def Ctrl.update_calibration (c : Ctrl) (now : Int) (ioOk : Bool) :
    Ctrl × Except PyErr Unit :=
  if c.is_in_starting_rest then c.tickStartingRest now
  else if c.is_in_focus_phase then c.tickFocus now
  else if c.is_in_ending_rest then c.tickEndingRest now ioOk
  else (c, .ok ())

/-- The calibration part of `BCIController.update` (one scheduler tick):
runs the state machine only while calibration is active. -/
def Ctrl.tick (c : Ctrl) (now : Int) (ioOk : Bool) : Ctrl × Except PyErr Unit :=
  if c.calibration_active then c.update_calibration now ioOk
  else (c, .ok ())

/-- Spec-side definition of the EEG target order, following the spec words
"for target in 1..8, append target repeated rounds times" (targets are the
1-based circle numbers). -/
def specEEGTargets (rounds : Nat) : List Nat :=
  ((List.range 8).map (fun k => List.replicate rounds (k + 1))).flatten

/-- A fresh `CalibrationDataHandler` as built in the controller constructor. -/
def baseCalib : CalibHandler :=
  { username := "u", session_id := "s", current_calibration_index := 1,
    current_circle := none, current_phase := none,
    starting_rest_data := [], focus_data := [], ending_rest_data := [] }

/-- A fresh controller in the calibration phase (mouse mode defaults). -/
def baseCtrl : Ctrl :=
  { input_mode := .mouse, current_phase := .calibration,
    focus_time := 3, gap_time := 2, calibration_rounds := 5,
    calibration_active := false, calibration_sequence := [],
    current_calibration_index := 0, calibration_start_time := 0,
    calibration_session_start := 0, calibration_completed_rounds := 0,
    is_in_starting_rest := false, is_in_focus_phase := false,
    is_in_ending_rest := false, total_calibrations_done := 0,
    circles_completed_in_round := 0, eeg_current_circle_number := 1,
    eeg_circle_repetition := 0, mouse_x := 0, mouse_y := 0,
    gaze_x := 0, gaze_y := 0, tobii_focus_start_time := none,
    tobii_currently_focused_circle := none, calib := baseCalib, eeg := none,
    allow_without_hardware := false, eeg_device_connected := false,
    tobii_available := true, device_sampling_rate := 256,
    device_channel_count := 32, statusLog := [], journal := [] }

/-- A 2-channel EEG handler with circle 1 open in the focus phase. -/
def h9 : EEGHandler :=
  { username := "u", session_id := "s", sampling_rate := 256, channel_count := 2,
    current_calibration_index := 1, current_circle := some 1,
    current_phase := some .focus, starting_rest_data := [], focus_data := [],
    ending_rest_data := [], gap_time := 2, focus_time := 4 }

/-- A well-shaped 2-channel EEG sample. -/
def s9 : ESample := ⟨some 7, [1, 2]⟩

/-- An eye-tracking handler holding samples of an open trial. -/
def h10 : CalibHandler :=
  { baseCalib with
    current_circle := some 7, current_phase := some .startingRest,
    starting_rest_data := [⟨1, none, none, none, none⟩] }

/-- Mid-focus mouse-mode controller state with an open circle and data. -/
def c1ctrl : Ctrl :=
  { baseCtrl with
    input_mode := .mouse, calibration_active := true,
    calibration_sequence := [2, 0, 1, 3, 4, 5, 6, 7],
    current_calibration_index := 0, is_in_focus_phase := true,
    calib := { baseCalib with
               current_circle := some 3,
               current_phase := some .focus,
               focus_data := [⟨100, some 5, some 6, none, none⟩] } }

/-- Tobii-mode controller state during the starting-rest phase, with the
handler collecting for circle 5 in phase "starting_rest". -/
def c2ctrl : Ctrl :=
  { baseCtrl with
    input_mode := .tobii, calibration_active := true,
    calibration_sequence := [4, 0, 1, 2, 3, 5, 6, 7],
    current_calibration_index := 0, is_in_starting_rest := true,
    calib := { baseCalib with
               current_circle := some 5,
               current_phase := some .startingRest } }

/-- A gaze dict delivered by the Tobii callback. -/
def c2gaze : GazeData := ⟨some 50, some 10, some 20, none, none⟩

/-- Tobii-mode controller state during the focus phase (circle 5 glowing),
with an EEG handler attached to exercise the EEG routing path as well. -/
def c2wctrl : Ctrl :=
  { baseCtrl with
    input_mode := .tobii, calibration_active := true,
    calibration_sequence := [4, 0, 1, 2, 3, 5, 6, 7],
    current_calibration_index := 0, is_in_focus_phase := true,
    calib := { baseCalib with
               current_circle := some 5,
               current_phase := some .focus },
    eeg := some h9 }

/-- Controller configured with `rounds = 0` (empty calibration sequence). -/
def c3ctrl : Ctrl := { baseCtrl with calibration_rounds := 0 }

/-- Controller configured with `rounds = 1` in mouse mode. -/
def c4ctrl : Ctrl := { baseCtrl with calibration_rounds := 1 }

/-- An injected shuffle: the identity permutation of range 8 each round. -/
def c4perms : Nat → List Nat := fun _ => [0, 1, 2, 3, 4, 5, 6, 7]

/-- Controller state in the focus phase whose focus time has elapsed. -/
def c4focusCtrl : Ctrl :=
  { baseCtrl with
    calibration_active := true,
    calibration_sequence := [0, 1, 2, 3, 4, 5, 6, 7],
    current_calibration_index := 0, is_in_focus_phase := true,
    calibration_start_time := 0, focus_time := 3,
    calib := { baseCalib with
               current_circle := some 1,
               current_phase := some .focus } }

/-- EEG-mode controller about to complete the first trial of a
`rounds = 1` session (block index still 1). -/
def c5ctrl : Ctrl :=
  { baseCtrl with
    input_mode := .eeg, calibration_active := true,
    calibration_rounds := 1, calibration_sequence := mkEEGSequence 1,
    current_calibration_index := 0, is_in_ending_rest := true,
    calibration_start_time := 0, gap_time := 2,
    eeg_current_circle_number := 1, eeg_circle_repetition := 0,
    eeg := some h9 }

/-- EEG-mode controller about to complete trial `k = 1` of a `rounds = 2`
session (second repetition of circle 1). -/
def c5wctrl : Ctrl :=
  { baseCtrl with
    input_mode := .eeg, calibration_active := true,
    calibration_rounds := 2, calibration_sequence := mkEEGSequence 2,
    current_calibration_index := 1, is_in_ending_rest := true,
    calibration_start_time := 0, gap_time := 2,
    eeg_current_circle_number := 1, eeg_circle_repetition := 1,
    eeg := some h9 }

/-- An eye-tracking handler with circle 2 open and one focus sample. -/
def c6calib : CalibHandler :=
  { baseCalib with
    current_circle := some 2, current_phase := some .focus,
    focus_data := [⟨3, some 4, some 5, none, none⟩] }

/-- An EEG handler with distinctive timing settings and circle 1 open. -/
def c6eeg : EEGHandler := { h9 with gap_time := 9, focus_time := 11 }

/-- An EEG handler with circle 1 open and one starting-rest sample. -/
def c8eeg : EEGHandler := { h9 with starting_rest_data := [⟨1, [5, 6]⟩] }

/-- An eye-tracking handler with circle 4 open. -/
def c8calib : CalibHandler := { baseCalib with current_circle := some 4 }

/-- An injected shuffle: the reversed permutation of range 8 each round. -/
def c7perms : Nat → List Nat := fun _ => [7, 6, 5, 4, 3, 2, 1, 0]

/-- The JSON line carried by an optional journal entry (null when absent). -/
def lineOf (o : Option FileLine) : JVal := o.elim .null FileLine.line

/-- The meta object of an optional journal entry (null when absent). -/
def metaOf (o : Option FileLine) : JVal := ((lineOf o).lookup "meta").elim .null id

/-- Helper: `add_sample` is the identity when no phase or no circle is active. -/
theorem add_sample_inactive (h : EEGHandler) (s : ESample)
    (hcase : h.current_phase = none ∨ h.current_circle = none) :
    h.add_sample s = .ok h := by
  unfold EEGHandler.add_sample
  rw [if_pos hcase]

/-- Helper: `add_sample` is the identity on a channel-count mismatch. -/
theorem add_sample_mismatch (h : EEGHandler) (s : ESample)
    (hlen : s.channels.length ≠ h.channel_count) :
    h.add_sample s = .ok h := by
  unfold EEGHandler.add_sample
  by_cases hcase : h.current_phase = none ∨ h.current_circle = none
  · rw [if_pos hcase]
  · rw [if_neg hcase, if_pos hlen]

/-- Helper: a well-shaped sample delivered while a phase and circle are
active is appended to exactly that phase buffer. -/
theorem add_sample_routes (h : EEGHandler) (s : ESample) (p : Phase) (t : Int)
    (hp : h.current_phase = some p) (hc : h.current_circle.isSome = true)
    (ht : s.t = some t) (hlen : s.channels.length = h.channel_count) :
    ∃ h', h.add_sample s = .ok h' ∧
      h'.buf p = h.buf p ++ [⟨t, s.channels⟩] ∧
      (∀ q, q ≠ p → h'.buf q = h.buf q) ∧
      h'.current_phase = h.current_phase ∧
      h'.current_circle = h.current_circle ∧
      h'.current_calibration_index = h.current_calibration_index := by
  rcases Option.isSome_iff_exists.mp hc with ⟨n, hn⟩
  cases p with
  | startingRest =>
    refine ⟨{ h with starting_rest_data := h.starting_rest_data ++ [⟨t, s.channels⟩] },
      by simp [EEGHandler.add_sample, hp, hn, ht, hlen], ?_, ?_, by simp [hp], by simp [hn], rfl⟩
    · simp [EEGHandler.buf]
    · intro q hq; cases q <;> simp_all [EEGHandler.buf]
  | focus =>
    refine ⟨{ h with focus_data := h.focus_data ++ [⟨t, s.channels⟩] },
      by simp [EEGHandler.add_sample, hp, hn, ht, hlen], ?_, ?_, by simp [hp], by simp [hn], rfl⟩
    · simp [EEGHandler.buf]
    · intro q hq; cases q <;> simp_all [EEGHandler.buf]
  | endingRest =>
    refine ⟨{ h with ending_rest_data := h.ending_rest_data ++ [⟨t, s.channels⟩] },
      by simp [EEGHandler.add_sample, hp, hn, ht, hlen], ?_, ?_, by simp [hp], by simp [hn], rfl⟩
    · simp [EEGHandler.buf]
    · intro q hq; cases q <;> simp_all [EEGHandler.buf]

/-- C9: `EEGDataHandler.add_sample` leaves all three phase buffers unchanged
and does not raise whenever no phase or circle is active, or whenever the
sample channel count differs from the configured `channel_count`; a
well-shaped sample delivered during an active phase is appended only to that
phase buffer. -/
theorem c9_add_sample_frame (h : EEGHandler) (s : ESample) (p : Phase) (t : Int) :
    ((h.current_phase = none ∨ h.current_circle = none) → h.add_sample s = .ok h) ∧
    (s.channels.length ≠ h.channel_count → h.add_sample s = .ok h) ∧
    (h.current_phase = some p → h.current_circle.isSome = true →
      s.t = some t → s.channels.length = h.channel_count →
      ∃ h', h.add_sample s = .ok h' ∧
        h'.buf p = h.buf p ++ [⟨t, s.channels⟩] ∧
        ∀ q, q ≠ p → h'.buf q = h.buf q) := by
  refine ⟨fun hcase => add_sample_inactive h s hcase,
          fun hlen => add_sample_mismatch h s hlen,
          fun hp hc ht hlen => ?_⟩
  obtain ⟨h', he, hb, hother, -, -, -⟩ := add_sample_routes h s p t hp hc ht hlen
  exact ⟨h', he, hb, hother⟩

/-- C9 witness: the routing part evaluated on a concrete handler and sample. -/
theorem c9_add_sample_frame_witness :
    ∃ h', h9.add_sample s9 = .ok h' ∧
      h'.buf .focus = h9.buf .focus ++ [⟨7, [1, 2]⟩] ∧
      ∀ q, q ≠ Phase.focus → h'.buf q = h9.buf q :=
  (c9_add_sample_frame h9 s9 .focus 7).2.2 rfl rfl rfl rfl

/-- C10: `start_circle_collection` sets the circle and phase, clears the
three phase buffers exactly when the phase is "starting_rest", and leaves
every previously collected sample in place for the "focus" and "ending_rest"
phases. -/
theorem c10_start_circle_collection (h : CalibHandler) (cid : Nat) (p : Phase) :
    ((h.start_circle_collection cid p).current_circle = some cid ∧
     (h.start_circle_collection cid p).current_phase = some p ∧
     (h.start_circle_collection cid p).current_calibration_index =
       h.current_calibration_index ∧
     (h.start_circle_collection cid p).username = h.username ∧
     (h.start_circle_collection cid p).session_id = h.session_id) ∧
    (p = .startingRest →
      (h.start_circle_collection cid p).starting_rest_data = [] ∧
      (h.start_circle_collection cid p).focus_data = [] ∧
      (h.start_circle_collection cid p).ending_rest_data = []) ∧
    (p ≠ .startingRest →
      (h.start_circle_collection cid p).starting_rest_data = h.starting_rest_data ∧
      (h.start_circle_collection cid p).focus_data = h.focus_data ∧
      (h.start_circle_collection cid p).ending_rest_data = h.ending_rest_data) := by
  cases p <;> simp [CalibHandler.start_circle_collection]

/-- C10 witness: a mid-trial switch to the focus phase on a handler holding
starting-rest samples. -/
theorem c10_start_circle_collection_witness :
    ((h10.start_circle_collection 4 .focus).current_circle = some 4 ∧
     (h10.start_circle_collection 4 .focus).current_phase = some .focus ∧
     (h10.start_circle_collection 4 .focus).current_calibration_index =
       h10.current_calibration_index ∧
     (h10.start_circle_collection 4 .focus).username = h10.username ∧
     (h10.start_circle_collection 4 .focus).session_id = h10.session_id) ∧
    (Phase.focus = .startingRest →
      (h10.start_circle_collection 4 .focus).starting_rest_data = [] ∧
      (h10.start_circle_collection 4 .focus).focus_data = [] ∧
      (h10.start_circle_collection 4 .focus).ending_rest_data = []) ∧
    (Phase.focus ≠ .startingRest →
      (h10.start_circle_collection 4 .focus).starting_rest_data =
        h10.starting_rest_data ∧
      (h10.start_circle_collection 4 .focus).focus_data = h10.focus_data ∧
      (h10.start_circle_collection 4 .focus).ending_rest_data =
        h10.ending_rest_data) :=
  c10_start_circle_collection h10 4 .focus

/-- Helper: the meta object of an EEG trial entry holds gap_time, focus_time
and timestamp. -/
theorem eeg_entry_meta (h : EEGHandler) (c : Nat) (now : Int) :
    (h.entryJson c now).lookup "meta" =
      some (.obj [("gap_time", .num h.gap_time), ("focus_time", .num h.focus_time),
                  ("timestamp", .num now)]) := rfl

/-- Helper: the meta object of an eye-tracking trial entry holds only
timestamp and data_type. -/
theorem calib_entry_meta (h : CalibHandler) (c : Nat) (now : Int) :
    (h.entryJson c now).lookup "meta" =
      some (.obj [("timestamp", .num now), ("data_type", .str "eye_tracking")]) := rfl

/-- Helper: `EEGDataHandler.save_circle_data` refuses when no circle is open. -/
theorem eeg_save_none (h : EEGHandler) (now : Int) (ioOk : Bool)
    (hn : h.current_circle = none) :
    h.save_circle_data now ioOk = (h, none, false) := by
  unfold EEGHandler.save_circle_data
  rw [hn]

/-- Helper: full characterization of `EEGDataHandler.save_circle_data` when a
circle is open. -/
theorem eeg_save_line (h : EEGHandler) (n : Nat) (now : Int)
    (hn : h.current_circle = some n) :
    (h.save_circle_data now true).2.1 =
      some ⟨"eeg_calibration", h.username, h.current_calibration_index,
            h.entryJson n now⟩ ∧
    (h.save_circle_data now true).2.2 = true ∧
    (h.save_circle_data now false).2.1 = none ∧
    (h.save_circle_data now false).2.2 = false ∧
    (h.save_circle_data now true).1.current_circle = none ∧
    (h.save_circle_data now true).1.current_phase = none ∧
    (h.save_circle_data now true).1.starting_rest_data = [] ∧
    (h.save_circle_data now true).1.focus_data = [] ∧
    (h.save_circle_data now true).1.ending_rest_data = [] := by
  unfold EEGHandler.save_circle_data
  rw [hn]
  simp

/-- Helper: full characterization of `CalibrationDataHandler.save_circle_data`
when a circle is open (the circle remains set after the save). -/
theorem calib_save_line (h : CalibHandler) (n : Nat) (now : Int)
    (hn : h.current_circle = some n) :
    (h.save_circle_data now true).2.1 =
      some ⟨"eye_calibration", h.username, h.current_calibration_index,
            h.entryJson n now⟩ ∧
    (h.save_circle_data now true).2.2 = true ∧
    (h.save_circle_data now false).2.1 = none ∧
    (h.save_circle_data now false).2.2 = false ∧
    (h.save_circle_data now true).1.current_circle = h.current_circle ∧
    (h.save_circle_data now true).1.current_phase = h.current_phase ∧
    (h.save_circle_data now true).1.starting_rest_data = [] ∧
    (h.save_circle_data now true).1.focus_data = [] ∧
    (h.save_circle_data now true).1.ending_rest_data = [] := by
  unfold CalibHandler.save_circle_data
  rw [hn]
  simp

/-- C6 counterexample: an eye-tracking (mouse/Tobii) trial line saved by
`CalibrationDataHandler.save_circle_data` has a meta object holding only
timestamp and data_type — it contains no gap_time or focus_time field,
refuting the claim for two of the three input modes. -/
theorem c6_counterexample :
    (c6calib.save_circle_data 5 true).2.2 = true ∧
    metaOf (c6calib.save_circle_data 5 true).2.1 =
      .obj [("timestamp", .num 5), ("data_type", .str "eye_tracking")] ∧
    (metaOf (c6calib.save_circle_data 5 true).2.1).lookup "gap_time" = none ∧
    (metaOf (c6calib.save_circle_data 5 true).2.1).lookup "focus_time" = none :=
  ⟨rfl, rfl, rfl, rfl⟩

/-- C6 (amended): only EEG-mode trial lines carry a meta object with
gap_time and focus_time, and there the values are the handler settings in
effect at flush time (so a `set_timing_parameters` before the flush is
reflected); eye-tracking (mouse/Tobii) lines carry a meta object with only
timestamp and data_type. -/
theorem c6_meta_fields (h : EEGHandler) (hc : CalibHandler) (n m : Nat)
    (now g f : Int) (hn : h.current_circle = some n)
    (hm : hc.current_circle = some m) :
    (∃ l, (h.save_circle_data now true).2.1 = some l ∧
       l.line.lookup "meta" =
         some (.obj [("gap_time", .num h.gap_time),
                     ("focus_time", .num h.focus_time),
                     ("timestamp", .num now)])) ∧
    (∃ l, ((h.set_timing_parameters g f).save_circle_data now true).2.1 = some l ∧
       l.line.lookup "meta" =
         some (.obj [("gap_time", .num g), ("focus_time", .num f),
                     ("timestamp", .num now)])) ∧
    (∃ l, (hc.save_circle_data now true).2.1 = some l ∧
       l.line.lookup "meta" =
         some (.obj [("timestamp", .num now),
                     ("data_type", .str "eye_tracking")])) := by
  have hn' : (h.set_timing_parameters g f).current_circle = some n := hn
  refine ⟨⟨_, (eeg_save_line h n now hn).1, eeg_entry_meta h n now⟩,
          ⟨_, (eeg_save_line (h.set_timing_parameters g f) n now hn').1, ?_⟩,
          ⟨_, (calib_save_line hc m now hm).1, calib_entry_meta hc m now⟩⟩
  exact eeg_entry_meta (h.set_timing_parameters g f) n now

/-- C6 witness: the amended statement evaluated on concrete handlers. -/
theorem c6_meta_fields_witness :
    (∃ l, (c6eeg.save_circle_data 7 true).2.1 = some l ∧
       l.line.lookup "meta" =
         some (.obj [("gap_time", .num c6eeg.gap_time),
                     ("focus_time", .num c6eeg.focus_time),
                     ("timestamp", .num 7)])) ∧
    (∃ l, ((c6eeg.set_timing_parameters 20 21).save_circle_data 7 true).2.1 = some l ∧
       l.line.lookup "meta" =
         some (.obj [("gap_time", .num 20), ("focus_time", .num 21),
                     ("timestamp", .num 7)])) ∧
    (∃ l, (c6calib.save_circle_data 7 true).2.1 = some l ∧
       l.line.lookup "meta" =
         some (.obj [("timestamp", .num 7),
                     ("data_type", .str "eye_tracking")])) :=
  c6_meta_fields c6eeg c6calib 1 2 7 20 21 rfl rfl

/-- C8 counterexample: `EEGDataHandler.save_circle_data` clears
`current_circle` while saving, so calling it twice for the same trial
produces ONE line — the second call returns False and writes nothing,
refuting the claimed two-line non-idempotence for the EEG writer. -/
theorem c8_counterexample :
    (c8eeg.save_circle_data 0 true).2.2 = true ∧
    ((c8eeg.save_circle_data 0 true).1.save_circle_data 0 true).2.2 = false ∧
    ((c8eeg.save_circle_data 0 true).1.save_circle_data 0 true).2.1 = none :=
  ⟨rfl, rfl, rfl⟩

/-- C8 (amended): a successful flush emits exactly one serialized JSON line
for the per-block file (the journal model appends, never overwrites) and
returns True only when the write/flush/fsync block succeeded; on an I/O
error it returns False, emits nothing and does not raise.  A second call for
the same trial emits a second (empty-buffer) line for the eye-tracking
writer, but is refused with False by the EEG writer, whose save clears
`current_circle`. -/
theorem c8_flush_semantics (h : EEGHandler) (hc : CalibHandler) (n m : Nat)
    (now : Int) (hn : h.current_circle = some n)
    (hm : hc.current_circle = some m) :
    ((h.save_circle_data now true).2.2 = true ∧
     (h.save_circle_data now true).2.1 =
       some ⟨"eeg_calibration", h.username, h.current_calibration_index,
             h.entryJson n now⟩) ∧
    ((h.save_circle_data now false).2.2 = false ∧
     (h.save_circle_data now false).2.1 = none) ∧
    ((hc.save_circle_data now false).2.2 = false ∧
     (hc.save_circle_data now false).2.1 = none) ∧
    (((h.save_circle_data now true).1.save_circle_data now true).2.2 = false ∧
     ((h.save_circle_data now true).1.save_circle_data now true).2.1 = none) ∧
    ((hc.save_circle_data now true).2.2 = true ∧
     ∃ l, ((hc.save_circle_data now true).1.save_circle_data now true).2.2 = true ∧
       ((hc.save_circle_data now true).1.save_circle_data now true).2.1 = some l) := by
  obtain ⟨e1, e2, e3, e4, e5, e6, e7, e8, e9⟩ := eeg_save_line h n now hn
  obtain ⟨d1, d2, d3, d4, d5, d6, d7, d8, d9⟩ := calib_save_line hc m now hm
  refine ⟨⟨e2, e1⟩, ⟨e4, e3⟩, ⟨d4, d3⟩, ⟨?_, ?_⟩, d2, ?_⟩
  · rw [eeg_save_none _ now true e5]
  · rw [eeg_save_none _ now true e5]
  · have hm2 : (hc.save_circle_data now true).1.current_circle = some m := by
      rw [d5, hm]
    obtain ⟨f1, f2, -⟩ := calib_save_line (hc.save_circle_data now true).1 m now hm2
    exact ⟨_, f2, f1⟩

/-- C8 witness: the amended flush semantics evaluated on concrete handlers. -/
theorem c8_flush_semantics_witness :
    (c8eeg.save_circle_data 3 true).2.2 = true ∧
    (c8eeg.save_circle_data 3 false).2.2 = false ∧
    (c8calib.save_circle_data 3 false).2.2 = false ∧
    ((c8calib.save_circle_data 3 true).1.save_circle_data 3 true).2.2 = true := by
  have w := c8_flush_semantics c8eeg c8calib 1 4 3 rfl rfl
  exact ⟨w.1.1, w.2.1.1, w.2.2.1.1, w.2.2.2.2.2.choose_spec.1⟩

/-- Helper: a flattened list of blocks of length 8 decomposes into its
blocks by drop/take. -/
theorem flatten_block (l : List (List Nat)) (hlen : ∀ b ∈ l, b.length = 8) :
    ∀ i, i < l.length → (l.flatten.drop (8 * i)).take 8 = l.getD i [] := by
  induction l with
  | nil => intro i hi; simp at hi
  | cons b rest ih =>
    intro i hi
    have hb : b.length = 8 := hlen b (by simp)
    cases i with
    | zero =>
      simp only [List.flatten_cons, Nat.mul_zero, List.drop_zero, List.getD]
      rw [← hb, List.take_left]
      rfl
    | succ j =>
      have hj : j < rest.length := by simpa using hi
      have h8 : 8 * (j + 1) = b.length + 8 * j := by rw [hb]; ring
      rw [List.flatten_cons, h8, List.drop_append,
        ih (fun x hx => hlen x (List.mem_cons_of_mem _ hx)) j hj]
      rfl

/-- Helper: length of the mouse/Tobii sequence under injected 8-element
permutations. -/
theorem randlen (rounds : Nat) (perms : Nat → List Nat)
    (hp : ∀ i, i < rounds → (perms i).Perm (List.range 8)) :
    (mkRandomSequence rounds perms).length = rounds * 8 := by
  unfold mkRandomSequence
  rw [List.length_flatten]
  have : ((List.range rounds).map perms).map List.length =
      (List.range rounds).map (fun _ => 8) := by
    rw [List.map_map]
    refine List.map_congr_left ?_
    intro i hi
    have := (hp i (List.mem_range.mp hi)).length_eq
    simpa using this
  rw [this]
  simp [List.map_const', Nat.mul_comm]

/-- Helper: the 1-based target view of the EEG sequence equals the spec
order. -/
theorem eeg_map (rounds : Nat) :
    (mkEEGSequence rounds).map (· + 1) = specEEGTargets rounds := by
  unfold mkEEGSequence specEEGTargets
  rw [List.map_flatten, List.map_map]
  congr 1
  refine List.map_congr_left ?_
  intro k _
  simp [List.map_replicate]

/-- Helper: length of the EEG sequence. -/
theorem eeglen (rounds : Nat) : (mkEEGSequence rounds).length = rounds * 8 := by
  unfold mkEEGSequence
  rw [List.length_flatten, List.map_map]
  have : (List.length ∘ fun c => List.replicate rounds c) = fun _ : Nat => rounds := by
    funext c
    simp
  rw [this]
  simp
  omega

/-- C7: for every `rounds >= 1` the generated sequence has length
`rounds * 8`; in mouse/Tobii mode the i-th contiguous block of 8 entries is
exactly the i-th injected shuffle (no cross-block shuffling) and its 1-based
target view is a permutation of the targets 1..8; in EEG mode the 1-based
target view is exactly target 1 repeated `rounds` times, then target 2, ...,
then target 8 (`specEEGTargets`).  The shuffles enter through the injected
permutation source, the deterministic seam the spec requires for
`random.shuffle`. -/
theorem c7_sequence_generation (rounds : Nat) (perms : Nat → List Nat)
    (_hr : 1 ≤ rounds) (hp : ∀ i, i < rounds → (perms i).Perm (List.range 8)) :
    (mkRandomSequence rounds perms).length = rounds * 8 ∧
    (∀ i, i < rounds →
      ((mkRandomSequence rounds perms).drop (8 * i)).take 8 = perms i ∧
      ((((mkRandomSequence rounds perms).drop (8 * i)).take 8).map (· + 1)).Perm
        ((List.range 8).map (· + 1))) ∧
    (mkEEGSequence rounds).length = rounds * 8 ∧
    (mkEEGSequence rounds).map (· + 1) = specEEGTargets rounds := by
  refine ⟨randlen rounds perms hp, ?_, eeglen rounds, eeg_map rounds⟩
  intro i hi
  have hblock : ((mkRandomSequence rounds perms).drop (8 * i)).take 8 =
      ((List.range rounds).map perms).getD i [] := by
    apply flatten_block
    · intro b hb
      obtain ⟨j, hj, rfl⟩ := List.mem_map.mp hb
      exact ((hp j (List.mem_range.mp hj)).length_eq).trans (by simp)
    · simpa using hi
  have hgetD : ((List.range rounds).map perms).getD i [] = perms i := by
    rw [List.getD_eq_getElem?_getD, List.getElem?_map, List.getElem?_range hi]
    rfl
  rw [hblock, hgetD]
  exact ⟨rfl, List.Perm.map _ (hp i hi)⟩

/-- Helper: closed form of `EEGDataHandler.save_circle_data` on a successful
write with an open circle. -/
theorem eeg_save_eq (h : EEGHandler) (n : Nat) (now : Int)
    (hn : h.current_circle = some n) :
    h.save_circle_data now true =
      ({ h with starting_rest_data := [], focus_data := [], ending_rest_data := [],
                current_circle := none, current_phase := none },
       some ⟨"eeg_calibration", h.username, h.current_calibration_index,
             h.entryJson n now⟩,
       true) := by
  unfold EEGHandler.save_circle_data
  rw [hn]
  rfl

/-- Helper: closed form of `CalibrationDataHandler.save_circle_data` on a
successful write with an open circle. -/
theorem calib_save_eq (h : CalibHandler) (n : Nat) (now : Int)
    (hn : h.current_circle = some n) :
    h.save_circle_data now true =
      ({ h with starting_rest_data := [], focus_data := [], ending_rest_data := [] },
       some ⟨"eye_calibration", h.username, h.current_calibration_index,
             h.entryJson n now⟩,
       true) := by
  unfold CalibHandler.save_circle_data
  rw [hn]
  rfl

/-- Helper: `end_circle_focus` without an open circle only clears the circle
and phase and writes nothing. -/
theorem calib_end_none (h : CalibHandler) (now : Int) (ioOk : Bool)
    (hn : h.current_circle = none) :
    h.end_circle_focus now ioOk =
      ({ h with current_circle := none, current_phase := none }, none, false) := by
  unfold CalibHandler.end_circle_focus
  rw [hn]

/-- Helper: closed form of `end_circle_focus` with an open circle on a
successful write: the partial trial is saved as one line. -/
theorem calib_end_eq (h : CalibHandler) (n : Nat) (now : Int)
    (hn : h.current_circle = some n) :
    h.end_circle_focus now true =
      ({ h with starting_rest_data := [], focus_data := [], ending_rest_data := [],
                current_circle := none, current_phase := none },
       some ⟨"eye_calibration", h.username, h.current_calibration_index,
             h.entryJson n now⟩,
       true) := by
  unfold CalibHandler.end_circle_focus
  rw [hn, calib_save_eq h n now hn]

/-- C3 (code_bug evidence): invoking `start_calibration` with `rounds = 0`
(hence an empty sequence, mouse mode, calibration phase) is NOT refused: the
code first activates the state machine and the phase flags and then raises
IndexError at `self.calibration_sequence[0]`, emitting no error status — the
claimed synchronous refusal without state mutation does not happen. -/
theorem c3_empty_sequence_crash :
    (c3ctrl.start_calibration 10 (fun _ => []) true).2 = .error .indexError ∧
    (c3ctrl.start_calibration 10 (fun _ => []) true).1.calibration_active = true ∧
    (c3ctrl.start_calibration 10 (fun _ => []) true).1.is_in_starting_rest = true ∧
    (c3ctrl.start_calibration 10 (fun _ => []) true).1.current_calibration_index = 0 ∧
    (c3ctrl.start_calibration 10 (fun _ => []) true).1.statusLog = [] :=
  ⟨rfl, rfl, rfl, rfl, rfl⟩

/-- C4 (code_bug evidence): `start_calibration` with a valid non-empty
sequence (mouse mode, rounds = 1) raises AttributeError — the success path
calls the undefined `_hide_main_ui` (the method is defined as
`_hide_main_UI`) — leaving the machine activated and emitting no status; the
per-tick update raises the same AttributeError at the focus-to-ending-rest
transition.  Both exceptions propagate out of the core (they are swallowed
only by bare `except` blocks in main.py, with no status notification). -/
theorem c4_attribute_error :
    (c4ctrl.start_calibration 10 c4perms true).2 = .error .attributeError ∧
    (c4ctrl.start_calibration 10 c4perms true).1.calibration_active = true ∧
    (c4ctrl.start_calibration 10 c4perms true).1.statusLog = [] ∧
    (c4focusCtrl.tick 20 true).2 = .error .attributeError ∧
    (c4focusCtrl.tick 20 true).1.is_in_ending_rest = true :=
  ⟨rfl, rfl, rfl, rfl, rfl⟩

/-- C1 counterexample: stopping mid-focus in mouse mode DOES persist a trial
line for the interrupted trial — `stop_calibration` calls
`end_circle_focus`, which saves the open partial trial; one line lands in
`eye_calibration/u/1.jsonl` although the state does become inactive. -/
theorem c1_counterexample :
    (c1ctrl.stop_calibration 200 true).calibration_active = false ∧
    (c1ctrl.stop_calibration 200 true).journal.length = 1 ∧
    ((c1ctrl.stop_calibration 200 true).journal.map FileLine.dir) =
      ["eye_calibration"] ∧
    ((c1ctrl.stop_calibration 200 true).journal.map FileLine.fileIndex) = [1] :=
  ⟨rfl, rfl, rfl, rfl⟩

/-- C1 (amended): `stop_calibration` during an active calibration always
deactivates the machine (Idle); in EEG mode no trial line is persisted for
the interrupted trial, but in mouse/Tobii mode the open partial trial is
flushed by `end_circle_focus`, appending exactly one line whenever a circle
is open (and nothing when none is). -/
theorem c1_stop_behavior (c : Ctrl) (now : Int) (ioOk : Bool)
    (hact : c.calibration_active = true) :
    (c.stop_calibration now ioOk).calibration_active = false ∧
    (c.input_mode = .eeg → (c.stop_calibration now ioOk).journal = c.journal) ∧
    (c.input_mode ≠ .eeg → c.calib.current_circle = none →
      (c.stop_calibration now ioOk).journal = c.journal) ∧
    (∀ n, c.input_mode ≠ .eeg → c.calib.current_circle = some n → ioOk = true →
      (c.stop_calibration now ioOk).journal =
        c.journal ++ [⟨"eye_calibration", c.calib.username,
          c.calib.current_calibration_index, c.calib.entryJson n now⟩]) := by
  refine ⟨?_, ?_, ?_, ?_⟩
  · by_cases hm : c.input_mode = .eeg <;>
      simp [Ctrl.stop_calibration, hact, hm, Ctrl.pushStatus]
  · intro hm
    simp [Ctrl.stop_calibration, hact, hm, Ctrl.pushStatus]
  · intro hm hn
    simp [Ctrl.stop_calibration, hact, hm, Ctrl.pushStatus,
      calib_end_none c.calib now ioOk hn]
  · intro n hm hn hio
    subst hio
    simp [Ctrl.stop_calibration, hact, hm, Ctrl.pushStatus,
      calib_end_eq c.calib n now hn]

/-- C1 witness: the amended stop behavior evaluated on the mid-focus
mouse-mode state. -/
theorem c1_stop_behavior_witness :
    (c1ctrl.stop_calibration 200 true).calibration_active = false ∧
    (c1ctrl.input_mode = .eeg →
      (c1ctrl.stop_calibration 200 true).journal = c1ctrl.journal) ∧
    (c1ctrl.input_mode ≠ .eeg → c1ctrl.calib.current_circle = none →
      (c1ctrl.stop_calibration 200 true).journal = c1ctrl.journal) ∧
    (∀ n, c1ctrl.input_mode ≠ .eeg → c1ctrl.calib.current_circle = some n →
      true = true →
      (c1ctrl.stop_calibration 200 true).journal =
        c1ctrl.journal ++ [⟨"eye_calibration", c1ctrl.calib.username,
          c1ctrl.calib.current_calibration_index, c1ctrl.calib.entryJson n 200⟩]) :=
  c1_stop_behavior c1ctrl 200 true rfl

/-- C2 counterexample: in Tobii mode a gaze sample arriving during the
starting-rest phase is NOT routed to the rest buffer: the controller guard
requires the focus flag, so `log_gaze_data` is never called, although the
handler is collecting for circle 5 in phase "starting_rest" and would have
buffered it.  The handler state is completely unchanged (sample dropped). -/
theorem c2_counterexample :
    (c2ctrl.on_gaze_update 10 20 c2gaze false 50).calib = c2ctrl.calib ∧
    (c2ctrl.on_gaze_update 10 20 c2gaze false 50).calib.starting_rest_data = [] ∧
    c2ctrl.calib.current_phase = some .startingRest ∧
    c2ctrl.is_in_starting_rest = true ∧ c2ctrl.calibration_active = true :=
  ⟨rfl, rfl, rfl, rfl, rfl⟩

/-- C2 (amended): sample routing is mode-asymmetric.  Mouse:
`on_mouse_move` stores only the cursor position — no sample ever reaches a
phase buffer or the journal.  Tobii: `_on_gaze_update` routes a sample only
while the focus flag is up (it is appended to the focus buffer for the
glowing circle); in any other phase the sample is dropped and the handler is
untouched.  EEG: `_on_eeg_sample` routes every well-shaped sample delivered
while calibration is active to the buffer of the handler phase, in arrival
order, dropping only shape mismatches. -/
theorem c2_routing (c : Ctrl) (x y gx gy : Int) (gaze : GazeData) (isF : Bool)
    (now : Int) (s : ESample) (h : EEGHandler) (p : Phase) (t : Int) (idx : Nat) :
    ((c.on_mouse_move x y).calib = c.calib ∧
     (c.on_mouse_move x y).eeg = c.eeg ∧
     (c.on_mouse_move x y).journal = c.journal) ∧
    (c.is_in_focus_phase = false →
      (c.on_gaze_update gx gy gaze isF now).calib = c.calib) ∧
    (c.calibration_active = true → c.is_in_focus_phase = true →
      c.calibration_sequence.get? c.current_calibration_index = some idx →
      c.calib.current_phase = some .focus →
      c.calib.current_circle = some (idx + 1) →
      (c.on_gaze_update gx gy gaze isF now).calib.focus_data =
        c.calib.focus_data ++
          [⟨gaze.timestamp.getD now, gaze.avg_x, gaze.avg_y, gaze.left,
            gaze.right⟩] ∧
      (c.on_gaze_update gx gy gaze isF now).calib.starting_rest_data =
        c.calib.starting_rest_data ∧
      (c.on_gaze_update gx gy gaze isF now).calib.ending_rest_data =
        c.calib.ending_rest_data) ∧
    (c.eeg = some h → c.calibration_active = true → h.current_phase = some p →
      h.current_circle.isSome = true → s.t = some t →
      s.channels.length = h.channel_count →
      ∃ h', (c.on_eeg_sample s).1.eeg = some h' ∧
        (c.on_eeg_sample s).2 = .ok () ∧
        h'.buf p = h.buf p ++ [⟨t, s.channels⟩] ∧
        ∀ q, q ≠ p → h'.buf q = h.buf q) := by
  refine ⟨⟨rfl, rfl, rfl⟩, ?_, ?_, ?_⟩
  · intro hf
    simp [Ctrl.on_gaze_update, hf]
  · intro hact hfoc hget hphase hcircle
    have hlt : c.current_calibration_index < c.calibration_sequence.length := by
      by_contra hcon
      rw [List.get?_eq_none.mpr (by omega)] at hget
      exact Option.noConfusion hget
    have hlog : c.calib.log_gaze_data gaze (idx + 1) now =
        { c.calib with focus_data := c.calib.focus_data ++
            [⟨gaze.timestamp.getD now, gaze.avg_x, gaze.avg_y, gaze.left,
              gaze.right⟩] } := by
      unfold CalibHandler.log_gaze_data
      rw [if_neg (by simp [hphase, hcircle]), hphase]
      simp [hphase]
    have h1 : c.calibration_sequence[c.current_calibration_index]? = some idx := by
      rw [← List.get?_eq_getElem?]
      exact hget
    have hElem : c.calibration_sequence[c.current_calibration_index] = idx :=
      Option.some.inj ((List.getElem?_eq_getElem hlt).symm.trans h1)
    refine ⟨?_, ?_, ?_⟩ <;>
      simp [Ctrl.on_gaze_update, hact, hfoc, hget, hlt, apply_ite, hElem, hlog]
  · intro hh hact hp hc ht hlen
    obtain ⟨h', he, hb, ho, -, -, -⟩ := add_sample_routes h s p t hp hc ht hlen
    refine ⟨h', ?_, ?_, hb, ho⟩ <;>
      simp [Ctrl.on_eeg_sample, hh, hact, he]

/-- C2 witness: the amended routing evaluated on a Tobii focus-phase state
with an attached EEG handler. -/
theorem c2_routing_witness :
    (c2wctrl.on_gaze_update 3 4 c2gaze true 60).calib.focus_data =
      c2wctrl.calib.focus_data ++ [⟨50, some 10, some 20, none, none⟩] ∧
    (c2wctrl.on_mouse_move 1 2).calib = c2wctrl.calib ∧
    ∃ h', (c2wctrl.on_eeg_sample s9).1.eeg = some h' ∧
      (c2wctrl.on_eeg_sample s9).2 = .ok () ∧
      h'.buf .focus = h9.buf .focus ++ [⟨7, [1, 2]⟩] ∧
      ∀ q, q ≠ Phase.focus → h'.buf q = h9.buf q := by
  have w := c2_routing c2wctrl 1 2 3 4 c2gaze true 60 s9 h9 .focus 7 4
  exact ⟨(w.2.2.1 rfl rfl rfl rfl rfl).1, w.1.1,
    w.2.2.2 rfl rfl rfl rfl rfl rfl⟩

/-- Helper: successor division and remainder, split on whether the
remainder wraps. -/
theorem succ_div_mod (r q s : Nat) (hs : s < r) :
    (r * q + s + 1) / r = (if s + 1 = r then q + 1 else q) ∧
    (r * q + s + 1) % r = (if s + 1 = r then 0 else s + 1) := by
  have hr : 0 < r := by omega
  by_cases hc : s + 1 = r
  · have he : r * q + s + 1 = r * (q + 1) := by
      have : r * (q + 1) = r * q + r := by ring
      omega
    rw [if_pos hc, if_pos hc, he, Nat.mul_div_cancel_left _ hr, Nat.mul_mod_right]
    exact ⟨rfl, rfl⟩
  · have hlt : s + 1 < r := by omega
    rw [if_neg hc, if_neg hc]
    constructor
    · rw [Nat.add_assoc, Nat.mul_add_div hr, Nat.div_eq_of_lt hlt, Nat.add_zero]
    · rw [Nat.add_assoc, Nat.mul_add_mod, Nat.mod_eq_of_lt hlt]

/-- Helper: the sequence-advance step changes no flush bookkeeping: the
journal, the repetition and block counters and the EEG handler calibration
index all pass through; only the position advances. -/
theorem endingAdvance_proj (c : Ctrl) (now : Int) :
    (c.endingAdvance now).1.journal = c.journal ∧
    (c.endingAdvance now).1.eeg_circle_repetition = c.eeg_circle_repetition ∧
    (c.endingAdvance now).1.eeg_current_circle_number = c.eeg_current_circle_number ∧
    (c.endingAdvance now).1.current_calibration_index =
      c.current_calibration_index + 1 ∧
    (c.endingAdvance now).1.eeg.elim 0 EEGHandler.current_calibration_index =
      c.eeg.elim 0 EEGHandler.current_calibration_index := by
  simp only [Ctrl.endingAdvance]
  split
  · simp [Ctrl.pushStatus]
  · split
    · simp
    · split
      · split
        · simp
        · rename_i heq2
          simp [Ctrl.pushStatus, EEGHandler.start_circle_collection,
            EEGHandler.set_phase, heq2]
      · simp [Ctrl.pushStatus]

/-- Helper: characterization of the EEG flush-and-bookkeeping step: one line
is journalled under the handler calibration index, and the repetition and
block counters advance as in the source (block counter and handler index
move once per completed run of `rounds` repetitions). -/
theorem endingFlush_eeg (c : Ctrl) (h : EEGHandler) (n : Nat) (now : Int)
    (hmode : c.input_mode = .eeg) (hh : c.eeg = some h)
    (hn : h.current_circle = some n) :
    ∃ c', c.endingFlush now true = some c' ∧
      c'.journal = c.journal ++ [⟨"eeg_calibration", h.username,
        h.current_calibration_index, h.entryJson n now⟩] ∧
      c'.current_calibration_index = c.current_calibration_index ∧
      c'.eeg_circle_repetition =
        (if c.eeg_circle_repetition + 1 ≥ c.calibration_rounds then 0
         else c.eeg_circle_repetition + 1) ∧
      c'.eeg_current_circle_number =
        (if c.eeg_circle_repetition + 1 ≥ c.calibration_rounds
         then c.eeg_current_circle_number + 1 else c.eeg_current_circle_number) ∧
      c'.eeg.elim 0 EEGHandler.current_calibration_index =
        (if c.eeg_circle_repetition + 1 ≥ c.calibration_rounds ∧
            c.eeg_current_circle_number + 1 ≤ 8
         then c.eeg_current_circle_number + 1
         else h.current_calibration_index) := by
  unfold Ctrl.endingFlush
  rw [if_pos hmode, hh, Option.map_some', eeg_save_eq h n now hn]
  by_cases hge : c.eeg_circle_repetition + 1 ≥ c.calibration_rounds
  · by_cases h8 : c.eeg_current_circle_number + 1 ≤ 8
    · refine ⟨_, rfl, ?_, ?_, ?_, ?_⟩ <;>
        simp [hge, h8, EEGHandler.start_calibration_index]
    · refine ⟨_, rfl, ?_, ?_, ?_, ?_⟩ <;>
        simp [hge, h8, EEGHandler.start_calibration_index]
  · refine ⟨_, rfl, ?_, ?_, ?_, ?_⟩ <;> simp [hge]

/-- C5 counterexample: in EEG mode with `rounds = 1`, completing the FIRST
trial (one of the `rounds * 8 = 8` trials of the full pass) already moves
the handler calibration index from 1 to 2: the first line is saved in file
1, and the index used for the next file increments after `rounds` trials of
one target, not once per full pass through all 8 targets. -/
theorem c5_counterexample :
    ((c5ctrl.tick 10 true).1.journal.map FileLine.fileIndex) = [1] ∧
    (c5ctrl.tick 10 true).1.journal.length = 1 ∧
    (c5ctrl.tick 10 true).1.eeg.elim 0 EEGHandler.current_calibration_index = 2 ∧
    (c5ctrl.tick 10 true).1.current_calibration_index = 1 :=
  ⟨rfl, rfl, rfl, rfl⟩

/-- C5 (amended): in sequential (EEG) mode, trial number `k` (0-based) is
flushed to file number `k / rounds + 1`: the `calibration_block_index` used
to name the persisted file is set to the next circle number each time all
`rounds` repetitions of one target complete — it increments once every
`rounds` completed trials (once per target), not once every `rounds * 8`;
it is distinct from the per-trial repetition counter
`eeg_circle_repetition`, which cycles inside `0..rounds-1`. -/
theorem c5_block_index_per_target (c : Ctrl) (h : EEGHandler) (now : Int)
    (k n : Nat)
    (hmode : c.input_mode = .eeg)
    (hact : c.calibration_active = true)
    (hsr : c.is_in_starting_rest = false)
    (hfp : c.is_in_focus_phase = false)
    (her : c.is_in_ending_rest = true)
    (helap : now - c.calibration_start_time ≥ c.gap_time)
    (hh : c.eeg = some h)
    (hn : h.current_circle = some n)
    (hr : 1 ≤ c.calibration_rounds)
    (hrep : c.eeg_circle_repetition = k % c.calibration_rounds)
    (hcn : c.eeg_current_circle_number = k / c.calibration_rounds + 1)
    (hidx : h.current_calibration_index = k / c.calibration_rounds + 1)
    (_hk : k < 8 * c.calibration_rounds) :
    (c.tick now true).1.journal =
      c.journal ++ [⟨"eeg_calibration", h.username,
        k / c.calibration_rounds + 1, h.entryJson n now⟩] ∧
    (c.tick now true).1.eeg_circle_repetition = (k + 1) % c.calibration_rounds ∧
    (c.tick now true).1.eeg_current_circle_number =
      (k + 1) / c.calibration_rounds + 1 ∧
    (c.tick now true).1.current_calibration_index =
      c.current_calibration_index + 1 ∧
    (k + 1 < 8 * c.calibration_rounds →
      (c.tick now true).1.eeg.elim 0 EEGHandler.current_calibration_index =
        (k + 1) / c.calibration_rounds + 1) ∧
    (c.tick now true).1.eeg_circle_repetition < c.calibration_rounds := by
  have hrpos : 0 < c.calibration_rounds := hr
  have hmod : k % c.calibration_rounds < c.calibration_rounds :=
    Nat.mod_lt _ hrpos
  obtain ⟨sd, sm⟩ :=
    succ_div_mod c.calibration_rounds (k / c.calibration_rounds)
      (k % c.calibration_rounds) hmod
  rw [Nat.div_add_mod] at sd sm
  obtain ⟨c', hf, hj, hpos', hrep', hcn', hidx'⟩ :=
    endingFlush_eeg c h n now hmode hh hn
  have htick : c.tick now true = c'.endingAdvance now := by
    simp only [Ctrl.tick, Ctrl.update_calibration, hact, hsr, hfp, her,
      if_true, if_false, Bool.false_eq_true, Ctrl.tickEndingRest]
    rw [if_pos helap, hf]
  obtain ⟨aj, arep, acn, apos, aidx⟩ := endingAdvance_proj c' now
  rw [htick]
  have hrep2 : (c'.endingAdvance now).1.eeg_circle_repetition =
      (k + 1) % c.calibration_rounds := by
    rw [arep, hrep', hrep, sm]
    by_cases hcase : k % c.calibration_rounds + 1 = c.calibration_rounds
    · simp [hcase]
    · have hnge : ¬(k % c.calibration_rounds + 1 ≥ c.calibration_rounds) := by
        omega
      simp [hcase, hnge]
  refine ⟨?_, hrep2, ?_, ?_, ?_, ?_⟩
  · rw [aj, hj, hidx]
  · rw [acn, hcn', hrep, hcn, sd]
    by_cases hcase : k % c.calibration_rounds + 1 = c.calibration_rounds
    · simp [hcase]
    · have hnge : ¬(k % c.calibration_rounds + 1 ≥ c.calibration_rounds) := by
        omega
      simp [hcase, hnge]
  · rw [apos, hpos']
  · intro hk1
    rw [aidx, hidx', hrep, hcn, hidx, sd]
    by_cases hcase : k % c.calibration_rounds + 1 = c.calibration_rounds
    · have hq := Nat.div_add_mod k c.calibration_rounds
      set a := c.calibration_rounds * (k / c.calibration_rounds) with ha
      have he : k + 1 = c.calibration_rounds * (k / c.calibration_rounds + 1) := by
        have hx : c.calibration_rounds * (k / c.calibration_rounds + 1) =
            a + c.calibration_rounds := by rw [ha]; ring
        omega
      have hlt7 : k / c.calibration_rounds + 1 < 8 := by
        have hx : c.calibration_rounds * (k / c.calibration_rounds + 1) <
            c.calibration_rounds * 8 := by omega
        exact Nat.lt_of_mul_lt_mul_left hx
      have h8 : k / c.calibration_rounds + 1 + 1 ≤ 8 := by omega
      simp [hcase, h8]
    · have hnge : ¬(k % c.calibration_rounds + 1 ≥ c.calibration_rounds) := by
        omega
      simp [hcase, hnge]
  · rw [hrep2]
    exact Nat.mod_lt _ hrpos

/-- C5 witness: completing trial `k = 1` of a `rounds = 2` EEG session
(second repetition of circle 1): the line is saved in file 1, the repetition
counter wraps to 0 and the block index moves to 2. -/
theorem c5_block_index_per_target_witness :
    (c5wctrl.tick 10 true).1.journal =
      c5wctrl.journal ++ [⟨"eeg_calibration", h9.username, 1 / 2 + 1,
        h9.entryJson 1 10⟩] ∧
    (c5wctrl.tick 10 true).1.eeg_circle_repetition = (1 + 1) % 2 ∧
    (c5wctrl.tick 10 true).1.eeg_current_circle_number = (1 + 1) / 2 + 1 ∧
    (c5wctrl.tick 10 true).1.current_calibration_index =
      c5wctrl.current_calibration_index + 1 ∧
    (1 + 1 < 8 * 2 →
      (c5wctrl.tick 10 true).1.eeg.elim 0 EEGHandler.current_calibration_index =
        (1 + 1) / 2 + 1) ∧
    (c5wctrl.tick 10 true).1.eeg_circle_repetition < 2 :=
  c5_block_index_per_target c5wctrl h9 10 1 1 rfl rfl rfl rfl rfl
    (by decide) rfl rfl (by decide) rfl rfl rfl (by decide)

/-- C7 witness: one round with a concrete injected shuffle. -/
theorem c7_sequence_generation_witness :
    (mkRandomSequence 1 c7perms).length = 1 * 8 ∧
    (∀ i, i < 1 →
      ((mkRandomSequence 1 c7perms).drop (8 * i)).take 8 = c7perms i ∧
      ((((mkRandomSequence 1 c7perms).drop (8 * i)).take 8).map (· + 1)).Perm
        ((List.range 8).map (· + 1))) ∧
    (mkEEGSequence 1).length = 1 * 8 ∧
    (mkEEGSequence 1).map (· + 1) = specEEGTargets 1 :=
  c7_sequence_generation 1 c7perms (by decide) (by
    intro i hi
    have h0 : i = 0 := Nat.lt_one_iff.mp hi
    subst h0
    decide)

end HAIx
